import Mathlib

/-!
Shallow embedding of the device-management frontend (static/js/script.js).
Devices are sidebar DOM elements carrying data attributes; the sidebar is a
list of section headers and device entries; the password map is an
association list held in page memory.  Randomness (Math.random) is passed
in explicitly as the drawn index.
-/

set_option maxHeartbeats 1000000

/-- The data-status attribute values a device can carry. -/
inductive Status where
  | online
  | offline
deriving DecidableEq, Repr

/-- Rendering of a status into the string used in class names. -/
def statusStr : Status → String
  | Status.online => "online"
  | Status.offline => "offline"

/-- The ternary in toggleDeviceStatus: online becomes offline and conversely. -/
def flipStatus (s : Status) : Status :=
  if s = Status.online then Status.offline else Status.online

/-- A sidebar device element: its data attributes plus the rendered
status-icon class and favorite-star state. -/
structure Device where
  id : String
  name : String
  isProtected : Bool
  deviceType : String
  status : Status
  favorite : Bool
  ip : Option String
  manualAdd : Bool
  statusClass : String
  favStar : String
  favActive : Bool
deriving DecidableEq, Repr

/-- An entry of the sidebar: one of the three category headers created by
initDeviceSections, or a device element. -/
inductive Entry where
  | favHeader
  | onlineHeader
  | offlineHeader
  | dev (d : Device)
deriving DecidableEq, Repr

/-- JavaScript falsiness of an optional string value: undefined, null and
the empty string are falsy. -/
def jsFalsyOptStr (o : Option String) : Bool :=
  match o with
  | none => true
  | some s => s == ""

/-- JavaScript truthiness of an optional string value. -/
def jsTruthyOptStr (o : Option String) : Bool :=
  match o with
  | none => false
  | some s => !(s == "")

/-- The JavaScript or-else idiom on an optional string: the value when
truthy, otherwise the fallback. -/
def jsOrStr (o : Option String) (fallback : String) : String :=
  match o with
  | none => fallback
  | some s => if s == "" then fallback else s

/-- Whether the character list starts with the given pattern. -/
def listStartsWith : List Char → List Char → Bool
  | _, [] => true
  | [], _ :: _ => false
  | c :: cs, p :: ps => c == p && listStartsWith cs ps

/-- Whether the pattern occurs contiguously inside the character list. -/
def listHasSub : List Char → List Char → Bool
  | [], pat => pat.isEmpty
  | c :: cs, pat => listStartsWith (c :: cs) pat || listHasSub cs pat

/-- The String.includes check of JavaScript: pat occurs inside s. -/
def strIncludes (s pat : String) : Bool :=
  listHasSub s.toList pat.toList

/-- The String.trim of JavaScript: strip whitespace from both ends. -/
def jsTrim (s : String) : String :=
  String.mk (((s.toList.dropWhile Char.isWhitespace).reverse.dropWhile
    Char.isWhitespace).reverse)

/-- getDeviceIconByName from the source: default icon for a falsy name,
otherwise keyword lookup on the lowercased name. -/
def getDeviceIconByName (name : Option String) : String :=
  if jsFalsyOptStr name then "📱"
  else
    if strIncludes ((name.getD "").toLower) "phone" || strIncludes ((name.getD "").toLower) "iphone" ||
       strIncludes ((name.getD "").toLower) "samsung" || strIncludes ((name.getD "").toLower) "xiaomi" then "📱"
    else if strIncludes ((name.getD "").toLower) "laptop" || strIncludes ((name.getD "").toLower) "notebook" ||
       strIncludes ((name.getD "").toLower) "macbook" then "💻"
    else if strIncludes ((name.getD "").toLower) "printer" || strIncludes ((name.getD "").toLower) "drukarka" then "🖨️"
    else if strIncludes ((name.getD "").toLower) "computer" || strIncludes ((name.getD "").toLower) "desktop" ||
       strIncludes ((name.getD "").toLower) "pc" then "🖥️"
    else if strIncludes ((name.getD "").toLower) "camera" || strIncludes ((name.getD "").toLower) "kamera" then "📹"
    else if strIncludes ((name.getD "").toLower) "socket" || strIncludes ((name.getD "").toLower) "plug" ||
       strIncludes ((name.getD "").toLower) "gniazdko" then "🔌"
    else if strIncludes ((name.getD "").toLower) "sensor" || strIncludes ((name.getD "").toLower) "czujnik" then "🌡️"
    else "📱"

/-- The seven icon strings getDeviceIconByName can produce. -/
def deviceIcons : List String := ["📱", "💻", "🖨️", "🖥️", "📹", "🔌", "🌡️"]

/-- Whether any of the recognized keywords occurs in the lowercased name. -/
def anyKeywordMatch (name : Option String) : Bool :=
  strIncludes ((name.getD "").toLower) "phone" || strIncludes ((name.getD "").toLower) "iphone" ||
  strIncludes ((name.getD "").toLower) "samsung" || strIncludes ((name.getD "").toLower) "xiaomi" ||
  strIncludes ((name.getD "").toLower) "laptop" || strIncludes ((name.getD "").toLower) "notebook" ||
  strIncludes ((name.getD "").toLower) "macbook" ||
  strIncludes ((name.getD "").toLower) "printer" || strIncludes ((name.getD "").toLower) "drukarka" ||
  strIncludes ((name.getD "").toLower) "computer" || strIncludes ((name.getD "").toLower) "desktop" ||
  strIncludes ((name.getD "").toLower) "pc" ||
  strIncludes ((name.getD "").toLower) "camera" || strIncludes ((name.getD "").toLower) "kamera" ||
  strIncludes ((name.getD "").toLower) "socket" || strIncludes ((name.getD "").toLower) "plug" ||
  strIncludes ((name.getD "").toLower) "gniazdko" ||
  strIncludes ((name.getD "").toLower) "sensor" || strIncludes ((name.getD "").toLower) "czujnik"

/-- The statuses array of addDeviceToSidebar. -/
def statuses : List Status := [Status.online, Status.offline]

/-- Indexing the statuses array at the drawn index, the model of
statuses at Math.floor of Math.random times the length. -/
def randomStatusOf (ri : Fin 2) : Status :=
  statuses.get ⟨ri.val, ri.isLt⟩

/-- The device element built by addDeviceToSidebar: status drawn at random,
not a favorite, data-ip set only for a truthy deviceIP argument. -/
def addedDevice (name id : String) (isProtected : Bool)
    (deviceType deviceIP : String) (isManuallyAdded : Bool) (ri : Fin 2) : Device :=
  { id := id
    name := name
    isProtected := isProtected
    deviceType := deviceType
    status := randomStatusOf ri
    favorite := false
    ip := if deviceIP == "" then none else some deviceIP
    manualAdd := isManuallyAdded
    statusClass := "device-status status-" ++ statusStr (randomStatusOf ri)
    favStar := "☆"
    favActive := false }

/-- Keep predicate for removing the element with a given device id:
headers are kept, devices are kept when their id differs. -/
def entryKeep (i : String) : Entry → Bool
  | Entry.dev d => !(d.id == i)
  | _ => true

/-- Detach the device element carrying the given id from the sidebar
(the removal half of a DOM insertBefore move). -/
def removeDevId (i : String) (sb : List Entry) : List Entry :=
  sb.filter (entryKeep i)

/-- In-place mutation of the device element with the given id. -/
def updEntry (i : String) (d : Device) : Entry → Entry
  | Entry.dev x => if x.id == i then Entry.dev d else Entry.dev x
  | e => e

/-- Apply an in-place mutation of the device element with the given id
across the sidebar. -/
def updateDev (i : String) (d : Device) (sb : List Entry) : List Entry :=
  sb.map (updEntry i d)

/-- Insert a device element directly after the first occurrence of the
given header; none models the crash on a missing header (querySelector
returning null). -/
def insertAfterHdr (hdr : Entry) (d : Device) : List Entry → Option (List Entry)
  | [] => none
  | e :: rest =>
    if e == hdr then some (e :: Entry.dev d :: rest)
    else (insertAfterHdr hdr d rest).map (fun l => e :: l)

/-- moveDeviceToFavorites: move the element directly after the Favorites
header; the source checks the header for null, so a missing header leaves
the sidebar as it is. -/
def moveDeviceToFavorites (d : Device) (sb : List Entry) : List Entry :=
  match insertAfterHdr Entry.favHeader d (removeDevId d.id sb) with
  | some sb2 => sb2
  | none => sb

/-- moveDeviceToCorrectSection: favorites go after the Favorites header,
otherwise the device goes after the header matching its status.  The
status branches dereference the header without a null check, hence the
Option result. -/
def moveDeviceToCorrectSection (d : Device) (sb : List Entry) : Option (List Entry) :=
  if d.favorite then some (moveDeviceToFavorites d sb)
  else
    match d.status with
    | Status.online => insertAfterHdr Entry.onlineHeader d (removeDevId d.id sb)
    | Status.offline => insertAfterHdr Entry.offlineHeader d (removeDevId d.id sb)

/-- addDeviceToSidebar: build the new element and insert it after the
Online or Offline header according to the randomly drawn status. -/
def addDeviceToSidebar (name id : String) (isProtected : Bool)
    (deviceType deviceIP : String) (isManuallyAdded : Bool) (ri : Fin 2)
    (sb : List Entry) : Option (List Entry) :=
  let d := addedDevice name id isProtected deviceType deviceIP isManuallyAdded ri
  match d.status with
  | Status.online => insertAfterHdr Entry.onlineHeader d sb
  | Status.offline => insertAfterHdr Entry.offlineHeader d sb

/-- The element mutation of toggleDeviceStatus: flip the data-status
attribute and refresh the status-icon class. -/
def deviceToggleStatus (d : Device) : Device :=
  let newStatus := flipStatus d.status
  { d with status := newStatus
           statusClass := "device-status status-" ++ statusStr newStatus }

/-- toggleDeviceStatus on the sidebar: mutate the element, then move it to
its correct section. -/
def toggleDeviceStatus (d : Device) (sb : List Entry) : Option (List Entry) :=
  let d2 := deviceToggleStatus d
  moveDeviceToCorrectSection d2 (updateDev d.id d2 sb)

/-- The element mutation of toggleFavorite: flip the data-favorite
attribute and redraw the star. -/
def deviceToggleFavorite (d : Device) : Device :=
  if d.favorite then { d with favorite := false, favStar := "☆", favActive := false }
  else { d with favorite := true, favStar := "★", favActive := true }

/-- toggleFavorite on the sidebar: a device leaving favorites moves by
status via moveDeviceToCorrectSection, a device entering favorites moves
via moveDeviceToFavorites. -/
def toggleFavorite (d : Device) (sb : List Entry) : Option (List Entry) :=
  let d2 := deviceToggleFavorite d
  let sb1 := updateDev d.id d2 sb
  if d.favorite then moveDeviceToCorrectSection d2 sb1
  else some (moveDeviceToFavorites d2 sb1)

/-- The element mutation of updateDeviceInSidebar: rewrite the attributes
and the inner HTML from the edit form, keeping id, status and favorite. -/
def updateDeviceFields (d : Device) (name : String) (isProtected : Bool)
    (deviceType deviceIP : String) (isManuallyAdded : Bool) : Device :=
  { d with name := name
           isProtected := isProtected
           deviceType := deviceType
           ip := if deviceIP == "" then none else some deviceIP
           manualAdd := isManuallyAdded
           favStar := if d.favorite then "★" else "☆"
           favActive := d.favorite
           statusClass := "device-status status-" ++ statusStr d.status }

/-- updateDeviceInSidebar: mutate the element in place, then move it to
its correct section. -/
def updateDeviceInSidebar (d : Device) (name : String) (isProtected : Bool)
    (deviceType deviceIP : String) (isManuallyAdded : Bool)
    (sb : List Entry) : Option (List Entry) :=
  let d2 := updateDeviceFields d name isProtected deviceType deviceIP isManuallyAdded
  moveDeviceToCorrectSection d2 (updateDev d.id d2 sb)

/-- Look a device id up in the in-memory password map. -/
def pwLookup (m : List (String × String)) (i : String) : Option String :=
  List.lookup i m

/-- Assignment into the password map (devicePasswords at id becomes pw). -/
def pwSet (m : List (String × String)) (i pw : String) : List (String × String) :=
  (i, pw) :: m.filter (fun pr => !(pr.1 == i))

/-- The delete operator on the password map. -/
def pwDel (m : List (String × String)) (i : String) : List (String × String) :=
  m.filter (fun pr => !(pr.1 == i))

/-- The page state the handlers mutate: the sidebar, the password map and
the visibility of the three modals. -/
structure AppState where
  sidebar : List Entry
  devicePasswords : List (String × String)
  addDeviceModalOpen : Bool
  editDeviceModalOpen : Bool
  passwordVerifyModalOpen : Bool
deriving DecidableEq, Repr

/-- deleteDevice: drop the password of the device and remove its element
from the sidebar. -/
def deleteDevice (d : Device) (st : AppState) : AppState :=
  { st with devicePasswords := pwDel st.devicePasswords d.id
            sidebar := removeDevId d.id st.sidebar }

/-- The action pending behind the password-verification modal. -/
inductive ActionType where
  | edit
  | delete
deriving DecidableEq, Repr

/-- The inputs the add-device form holds when its confirm button fires. -/
structure AddForm where
  nameRaw : String
  deviceId : String
  isPasswordProtected : Bool
  password : String
  deviceType : String
  manualSelected : Bool
  ipRaw : String
deriving DecidableEq, Repr

/-- The inputs the edit-device form holds when its confirm button fires;
ipDisabled mirrors the disabled flag of the IP input. -/
structure EditForm where
  nameRaw : String
  deviceId : String
  isPasswordProtected : Bool
  password : String
  deviceType : String
  ipDisabled : Bool
  ipRaw : String
deriving DecidableEq, Repr

/-- The device element the confirmAddDevice handler hands to
addDeviceToSidebar. -/
def confirmAddedDevice (form : AddForm) (ri : Fin 2) : Device :=
  addedDevice (jsTrim form.nameRaw) form.deviceId form.isPasswordProtected
    form.deviceType (if form.manualSelected then (jsTrim form.ipRaw) else "")
    form.manualSelected ri

/-- The click handler of the add-device confirm button: validate, store
the password when protected, add the device and close the modal.  The
pair carries the new state and the alert raised, none for a crash. -/
def confirmAddDevice (form : AddForm) (ri : Fin 2) (st : AppState) :
    Option (AppState × Option String) :=
  if (jsTrim form.nameRaw) == "" then some (st, some "Enter device name!")
  else if form.isPasswordProtected && (form.password == "") then
    some (st, some "Enter password for protected device!")
  else if form.manualSelected && ((jsTrim form.ipRaw) == "") then
    some (st, some "Enter device IP!")
  else
    let pws := if form.isPasswordProtected then
        pwSet st.devicePasswords form.deviceId form.password
      else st.devicePasswords
    match addDeviceToSidebar (jsTrim form.nameRaw) form.deviceId
        form.isPasswordProtected form.deviceType
        (if form.manualSelected then (jsTrim form.ipRaw) else "")
        form.manualSelected ri st.sidebar with
    | some sb => some ({ st with sidebar := sb
                                 devicePasswords := pws
                                 addDeviceModalOpen := false }, none)
    | none => none

/-- The IP the edit handler reads: the form field when it is enabled,
otherwise the data-ip attribute of the device (or the empty string). -/
def editDeviceIPValue (form : EditForm) (d : Device) : String :=
  if form.ipDisabled then d.ip.getD "" else (jsTrim form.ipRaw)

/-- The click handler of the edit-device confirm button: validate, update
the password map, update the element and close the modal. -/
def confirmEditDevice (form : EditForm) (d : Device) (st : AppState) :
    Option (AppState × Option String) :=
  if (jsTrim form.nameRaw) == "" then some (st, some "Enter device name!")
  else if form.isPasswordProtected && (form.password == "") &&
      jsFalsyOptStr (pwLookup st.devicePasswords form.deviceId) then
    some (st, some "Enter password for protected device!")
  else if d.manualAdd && (editDeviceIPValue form d == "") then
    some (st, some "Enter device IP!")
  else
    let pws := if form.isPasswordProtected then
        (if form.password == "" then st.devicePasswords
         else pwSet st.devicePasswords form.deviceId form.password)
      else pwDel st.devicePasswords form.deviceId
    match updateDeviceInSidebar d (jsTrim form.nameRaw) form.isPasswordProtected
        form.deviceType (editDeviceIPValue form d) d.manualAdd st.sidebar with
    | some sb => some ({ st with sidebar := sb
                                 devicePasswords := pws
                                 editDeviceModalOpen := false }, none)
    | none => none

/-- The click handler of the password-verification confirm button: on a
match close the modal and run the pending action, otherwise alert. -/
def confirmPasswordVerify (entered : String) (d : Device)
    (action : ActionType) (st : AppState) : AppState × Option String :=
  let correctPassword := pwLookup st.devicePasswords d.id
  if some entered == correctPassword then
    let st1 := { st with passwordVerifyModalOpen := false }
    match action with
    | ActionType.edit => ({ st1 with editDeviceModalOpen := true }, none)
    | ActionType.delete => (deleteDevice d st1, none)
  else
    (st, some "Incorrect password!")

/-- A device found by a scan, as the API returns it. -/
structure ScanDevice where
  id : String
  name : Option String
  typ : Option String
  address : Option String
deriving DecidableEq, Repr

/-- A JSON body of the scan endpoints. -/
structure ScanResponse where
  devices : Option (List ScanDevice)
  error : Option String
deriving DecidableEq, Repr

/-- A device row rendered into the device-list container. -/
structure RenderedScanItem where
  id : String
  icon : String
  name : String
  addressText : String
deriving DecidableEq, Repr

/-- The row scanForDevices renders for one device. -/
def renderScanItem (d : ScanDevice) : RenderedScanItem :=
  { id := d.id
    icon := jsOrStr d.typ (getDeviceIconByName d.name)
    name := jsOrStr d.name "Nieznane urządzenie"
    addressText := jsOrStr d.address "Brak adresu MAC" }

/-- What the scan callback leaves in the device-list container. -/
inductive ScanRender where
  | errorMsg (msg : String)
  | deviceItems (items : List RenderedScanItem)
  | noDevices
deriving DecidableEq, Repr

/-- The then branch of scanForDevices: error message on a truthy error,
device rows on a non-empty devices array, otherwise the no-devices note. -/
def renderScanResult (data : ScanResponse) : ScanRender :=
  if jsTruthyOptStr data.error then ScanRender.errorMsg (data.error.getD "")
  else
    match data.devices with
    | some l => if 0 < l.length then ScanRender.deviceItems (l.map renderScanItem)
                else ScanRender.noDevices
    | none => ScanRender.noDevices

/-- The API base configured at the top of the script. -/
def API_BASE_URL : String := "http://localhost:5000/api"

/-- The URL scanForDevices fetches for a method. -/
def scanRequestUrl (method : String) : String :=
  API_BASE_URL ++ "/devices/scan?method=" ++ method

/-- What a click on a connection option does. -/
inductive ConnectionAction where
  | scan (url : String) (showIpField : Bool)
  | manualEntry
  | hideList
deriving DecidableEq, Repr

/-- The connection-option click handler: wifi, bluetooth and camera issue
a scan request, manual only reveals the IP field. -/
def connectionOptionAction (method : String) : ConnectionAction :=
  if method == "wifi" then ConnectionAction.scan (scanRequestUrl "wifi") true
  else if method == "bluetooth" then ConnectionAction.scan (scanRequestUrl "bluetooth") false
  else if method == "camera" then ConnectionAction.scan (scanRequestUrl "camera") false
  else if method == "manual" then ConnectionAction.manualEntry
  else ConnectionAction.hideList

/-- A Bluetooth device row built by createDeviceListItem. -/
structure BtItem where
  id : String
  icon : String
  name : String
  paired : Bool
  mac : String
deriving DecidableEq, Repr

/-- createDeviceListItem from the source. -/
def createDeviceListItem (d : ScanDevice) (isPaired : Bool) : BtItem :=
  { id := d.id
    icon := jsOrStr d.typ (getDeviceIconByName d.name)
    name := jsOrStr d.name "Nieznane urządzenie"
    paired := isPaired
    mac := jsOrStr d.address "Brak adresu MAC" }

/-- What the Bluetooth dual-fetch callback leaves in the container. -/
inductive BtRender where
  | errorMsg (msg : String)
  | sections (paired : List BtItem) (available : List BtItem)
  | noDevices
deriving DecidableEq, Repr

/-- The joined then branch of scanBluetoothDevices: the error message only
when both responses carry a truthy error, otherwise the paired and
available sections (an empty list meaning the section is absent), or the
no-devices note when both lists are empty. -/
def scanBluetoothRender (availableData pairedData : ScanResponse) : BtRender :=
  if jsTruthyOptStr availableData.error && jsTruthyOptStr pairedData.error then
    BtRender.errorMsg "An error occurred while scanning Bluetooth devices."
  else
    let pairedDevices := pairedData.devices.getD []
    let availableDevices := availableData.devices.getD []
    if pairedDevices.length == 0 && availableDevices.length == 0 then
      BtRender.noDevices
    else
      BtRender.sections (pairedDevices.map (fun d => createDeviceListItem d true))
        (availableDevices.map (fun d => createDeviceListItem d false))

/-- Modelled from the spec: the reading of claim C1 that toggleDeviceStatus
re-draws the status at random exactly like creation does, from the
statuses array at the drawn index. -/
def specRandomToggle (ri : Fin 2) (d : Device) : Device :=
  { d with status := randomStatusOf ri
           statusClass := "device-status status-" ++ statusStr (randomStatusOf ri) }

/-- Statement helper: the device element sits directly after the given
header somewhere in the sidebar. -/
def followsHeader (hdr : Entry) (d : Device) : List Entry → Bool
  | [] => false
  | [_] => false
  | a :: b :: rest =>
    (a == hdr && b == Entry.dev d) || followsHeader hdr d (b :: rest)

/-- Statement helper: the header a device belongs after, per the spec
categorization (Favorites, then Online or Offline by status). -/
def hdrFor (d : Device) : Entry :=
  if d.favorite then Entry.favHeader
  else
    match d.status with
    | Status.online => Entry.onlineHeader
    | Status.offline => Entry.offlineHeader

/-- Statement helper: some device element with this id in the sidebar is
marked password-protected. -/
def isProtWithId (i : String) : Entry → Bool
  | Entry.dev d => d.id == i && d.isProtected
  | _ => false

/-- Statement helper: the sidebar holds a protected device with this id. -/
def hasProtectedDev (sb : List Entry) (i : String) : Bool :=
  sb.any (isProtWithId i)

/-- Statement helper: a protected device element has a password entry. -/
def entryPwOk (m : List (String × String)) : Entry → Bool
  | Entry.dev d => !d.isProtected || (pwLookup m d.id).isSome
  | _ => true

/-- The claimed invariant: the password map has an entry for an id exactly
when a password-protected device with that id is in the sidebar. -/
def pwMapConsistent (st : AppState) : Bool :=
  st.devicePasswords.all (fun pr => hasProtectedDev st.sidebar pr.1) &&
  st.sidebar.all (entryPwOk st.devicePasswords)

/-- A concrete online device, exercising the theorems below. -/
def devOnlineEx : Device :=
  { id := "d1", name := "lamp", isProtected := false, deviceType := "🔌"
    status := Status.online, favorite := false, ip := none, manualAdd := false
    statusClass := "device-status status-online", favStar := "☆", favActive := false }

/-- A concrete protected device with a stored password. -/
def devProtEx : Device :=
  { id := "d2", name := "cam", isProtected := true, deviceType := "📹"
    status := Status.online, favorite := false, ip := none, manualAdd := false
    statusClass := "device-status status-online", favStar := "☆", favActive := false }

/-- A concrete page state showing the password-verification modal for
devProtEx, whose stored password is pw. -/
def stVerifyEx : AppState :=
  { sidebar := [Entry.favHeader, Entry.onlineHeader, Entry.dev devProtEx, Entry.offlineHeader]
    devicePasswords := [("d2", "pw")]
    addDeviceModalOpen := false
    editDeviceModalOpen := false
    passwordVerifyModalOpen := true }

/-- A concrete add form whose name is blank after trimming. -/
def formBlankNameEx : AddForm :=
  { nameRaw := " ", deviceId := "id3", isPasswordProtected := false
    password := "", deviceType := "📱", manualSelected := false, ipRaw := "" }

/-- A concrete sidebar holding the three headers and devOnlineEx. -/
def sbHeadersEx : List Entry :=
  [Entry.favHeader, Entry.onlineHeader, Entry.dev devOnlineEx, Entry.offlineHeader]

/-- A concrete failed Bluetooth available-devices response. -/
def btAvailErrEx : ScanResponse := { devices := none, error := some "boom" }

/-- A concrete successful Bluetooth paired-devices response with one device. -/
def btPairedOkEx : ScanResponse :=
  { devices := some [{ id := "b1", name := some "JBL", typ := none, address := none }]
    error := none }

/-- A concrete valid manual add form. -/
def formManualEx : AddForm :=
  { nameRaw := "tv", deviceId := "id6", isPasswordProtected := false
    password := "", deviceType := "📱", manualSelected := true, ipRaw := "1.2.3.4" }

/-- A concrete page state with an empty sidebar apart from the headers. -/
def stEmptyEx : AppState :=
  { sidebar := [Entry.favHeader, Entry.onlineHeader, Entry.offlineHeader]
    devicePasswords := []
    addDeviceModalOpen := true
    editDeviceModalOpen := false
    passwordVerifyModalOpen := false }

/-- The device formManualEx creates at draw 0. -/
def devManualEx : Device := confirmAddedDevice formManualEx 0

/-- The page state after confirming formManualEx on stEmptyEx at draw 0. -/
def stAfterAddEx : AppState :=
  { sidebar := [Entry.favHeader, Entry.onlineHeader, Entry.dev devManualEx, Entry.offlineHeader]
    devicePasswords := []
    addDeviceModalOpen := false
    editDeviceModalOpen := false
    passwordVerifyModalOpen := false }

/-- Statement helper: whether an entry is one of the three headers. -/
def isHdrEntry : Entry → Bool
  | Entry.dev _ => false
  | _ => true

theorem insertAfterHdr_follows (hdr : Entry) (d : Device) :
    ∀ sb sb', insertAfterHdr hdr d sb = some sb' → followsHeader hdr d sb' = true := by
  intro sb
  induction sb with
  | nil => intro sb' h; simp [insertAfterHdr] at h
  | cons e rest ih =>
    intro sb' h
    by_cases he : (e == hdr) = true
    · simp only [insertAfterHdr, he, if_pos] at h
      cases h
      simp [followsHeader, he]
    · simp only [insertAfterHdr, he, if_neg, Bool.false_eq_true, not_false_iff,
        Option.map_eq_some'] at h
      obtain ⟨l, hl, rfl⟩ := h
      have hrec := ih l hl
      cases l with
      | nil => simp [followsHeader] at hrec
      | cons b bs =>
        simp only [followsHeader, Bool.or_eq_true]
        right
        exact hrec

theorem insertAfterHdr_isSome (hdr : Entry) (d : Device) :
    ∀ sb, hdr ∈ sb → ∃ sb', insertAfterHdr hdr d sb = some sb' := by
  intro sb
  induction sb with
  | nil => intro h; simp at h
  | cons e rest ih =>
    intro hm
    by_cases he : (e == hdr) = true
    · exact ⟨e :: Entry.dev d :: rest, by simp [insertAfterHdr, he]⟩
    · have hmr : hdr ∈ rest := by
        rcases List.mem_cons.mp hm with h1 | h1
        · exact absurd (by simp [h1]) he
        · exact h1
      obtain ⟨l, hl⟩ := ih hmr
      exact ⟨e :: l, by simp [insertAfterHdr, he, hl]⟩

theorem mem_insertAfterHdr {hdr : Entry} {d : Device} :
    ∀ {sb sb' : List Entry}, insertAfterHdr hdr d sb = some sb' →
      ∀ x, (x ∈ sb' ↔ x ∈ sb ∨ x = Entry.dev d) := by
  intro sb
  induction sb with
  | nil => intro sb' h; simp [insertAfterHdr] at h
  | cons e rest ih =>
    intro sb' h x
    by_cases he : (e == hdr) = true
    · simp only [insertAfterHdr, he, if_pos] at h
      cases h
      simp only [List.mem_cons]
      tauto
    · simp only [insertAfterHdr, he, if_neg, Bool.false_eq_true, not_false_iff,
        Option.map_eq_some'] at h
      obtain ⟨l, hl, rfl⟩ := h
      have hrec := ih hl x
      simp only [List.mem_cons, hrec]
      tauto

theorem hdr_mem_removeDevId (e : Entry) (he : isHdrEntry e = true) (i : String)
    {sb : List Entry} (hm : e ∈ sb) : e ∈ removeDevId i sb := by
  refine List.mem_filter.mpr ⟨hm, ?_⟩
  cases e <;> simp [entryKeep] <;> simp [isHdrEntry] at he

theorem hdr_mem_updateDev (e : Entry) (he : isHdrEntry e = true) (i : String)
    (d : Device) {sb : List Entry} (hm : e ∈ sb) : e ∈ updateDev i d sb := by
  refine List.mem_map.mpr ⟨e, hm, ?_⟩
  cases e <;> simp [updEntry] <;> simp [isHdrEntry] at he

theorem mem_updateDev {i : String} {d : Device} {sb : List Entry} {x : Entry} :
    x ∈ updateDev i d sb ↔ ∃ e ∈ sb, updEntry i d e = x := by
  simp [updateDev, List.mem_map]
theorem moveToCorrect_spec (d : Device) (sb : List Entry)
    (hf : Entry.favHeader ∈ sb) (hon : Entry.onlineHeader ∈ sb)
    (hoff : Entry.offlineHeader ∈ sb) :
    ∃ sb', moveDeviceToCorrectSection d sb = some sb' ∧
      followsHeader (hdrFor d) d sb' = true := by
  by_cases hfav : d.favorite = true
  · have hf2 : Entry.favHeader ∈ removeDevId d.id sb :=
      hdr_mem_removeDevId Entry.favHeader rfl _ hf
    obtain ⟨sb2, h2⟩ := insertAfterHdr_isSome Entry.favHeader d _ hf2
    refine ⟨sb2, ?_, ?_⟩
    · simp [moveDeviceToCorrectSection, hfav, moveDeviceToFavorites, h2]
    · simpa [hdrFor, hfav] using insertAfterHdr_follows _ _ _ _ h2
  · cases hst : d.status with
    | online =>
      have h2m : Entry.onlineHeader ∈ removeDevId d.id sb :=
        hdr_mem_removeDevId Entry.onlineHeader rfl _ hon
      obtain ⟨sb2, h2⟩ := insertAfterHdr_isSome Entry.onlineHeader d _ h2m
      refine ⟨sb2, ?_, ?_⟩
      · simp [moveDeviceToCorrectSection, hfav, hst, h2]
      · simpa [hdrFor, hfav, hst] using insertAfterHdr_follows _ _ _ _ h2
    | offline =>
      have h2m : Entry.offlineHeader ∈ removeDevId d.id sb :=
        hdr_mem_removeDevId Entry.offlineHeader rfl _ hoff
      obtain ⟨sb2, h2⟩ := insertAfterHdr_isSome Entry.offlineHeader d _ h2m
      refine ⟨sb2, ?_, ?_⟩
      · simp [moveDeviceToCorrectSection, hfav, hst, h2]
      · simpa [hdrFor, hfav, hst] using insertAfterHdr_follows _ _ _ _ h2

theorem mem_moveToCorrect {d : Device} {sb sb' : List Entry}
    (hf : Entry.favHeader ∈ sb)
    (h : moveDeviceToCorrectSection d sb = some sb') :
    ∀ x, x ∈ sb' ↔ (x ∈ sb ∧ entryKeep d.id x = true) ∨ x = Entry.dev d := by
  intro x
  by_cases hfav : d.favorite = true
  · have hf2 : Entry.favHeader ∈ removeDevId d.id sb :=
      hdr_mem_removeDevId Entry.favHeader rfl _ hf
    obtain ⟨sb2, h2⟩ := insertAfterHdr_isSome Entry.favHeader d _ hf2
    have heq : sb' = sb2 := by
      simp [moveDeviceToCorrectSection, hfav, moveDeviceToFavorites, h2] at h
      exact h.symm
    subst heq
    have hm := mem_insertAfterHdr h2 x
    simp only [removeDevId, List.mem_filter] at hm
    exact hm
  · cases hst : d.status with
    | online =>
      simp only [moveDeviceToCorrectSection, hfav, if_neg, Bool.false_eq_true,
        not_false_iff, hst] at h
      have hm := mem_insertAfterHdr h x
      simp only [removeDevId, List.mem_filter] at hm
      exact hm
    | offline =>
      simp only [moveDeviceToCorrectSection, hfav, if_neg, Bool.false_eq_true,
        not_false_iff, hst] at h
      have hm := mem_insertAfterHdr h x
      simp only [removeDevId, List.mem_filter] at hm
      exact hm

theorem lookup_filter_self (i : String) :
    ∀ m : List (String × String),
      List.lookup i (m.filter (fun pr => !(pr.1 == i))) = none := by
  intro m
  induction m with
  | nil => rfl
  | cons kv t ih =>
    by_cases hk : kv.1 = i
    · have hbeq : (kv.1 == i) = true := by simp [hk]
      simp [List.filter_cons, hbeq, ih]
    · have hbeq : (kv.1 == i) = false := beq_eq_false_iff_ne.mpr hk
      have hbeq2 : (i == kv.1) = false := beq_eq_false_iff_ne.mpr (Ne.symm hk)
      simp [List.filter_cons, hbeq, List.lookup, hbeq2, ih]

theorem lookup_filter_ne {i j : String} (hne : j ≠ i) :
    ∀ m : List (String × String),
      List.lookup j (m.filter (fun pr => !(pr.1 == i))) = List.lookup j m := by
  intro m
  induction m with
  | nil => rfl
  | cons kv t ih =>
    by_cases hk : kv.1 = i
    · have hbeq : (kv.1 == i) = true := by simp [hk]
      have hj : (j == kv.1) = false := beq_eq_false_iff_ne.mpr (by rw [hk]; exact hne)
      simp [List.filter_cons, hbeq, List.lookup, hj, ih]
    · have hbeq : (kv.1 == i) = false := beq_eq_false_iff_ne.mpr hk
      by_cases hj : j = kv.1
      · have hj2 : (j == kv.1) = true := by simp [hj]
        simp [List.filter_cons, hbeq, List.lookup, hj2]
      · have hj2 : (j == kv.1) = false := beq_eq_false_iff_ne.mpr hj
        simp [List.filter_cons, hbeq, List.lookup, hj2, ih]

theorem pwLookup_pwSet (m : List (String × String)) (i pw j : String) :
    pwLookup (pwSet m i pw) j = if j = i then some pw else pwLookup m j := by
  by_cases hj : j = i
  · have hj2 : (j == i) = true := by simp [hj]
    simp [pwLookup, pwSet, List.lookup, hj2, hj]
  · have hj2 : (j == i) = false := beq_eq_false_iff_ne.mpr hj
    simp [pwLookup, pwSet, List.lookup, hj2, hj, lookup_filter_ne hj]

theorem pwLookup_pwDel (m : List (String × String)) (i j : String) :
    pwLookup (pwDel m i) j = if j = i then none else pwLookup m j := by
  by_cases hj : j = i
  · simp [pwLookup, pwDel, hj, lookup_filter_self]
  · simp [pwLookup, pwDel, hj, lookup_filter_ne hj]

theorem mem_pwDel {m : List (String × String)} {i : String} {pr : String × String} :
    pr ∈ pwDel m i ↔ pr ∈ m ∧ pr.1 ≠ i := by
  simp [pwDel, List.mem_filter]

theorem mem_pwSet {m : List (String × String)} {i pw : String} {pr : String × String} :
    pr ∈ pwSet m i pw ↔ pr = (i, pw) ∨ (pr ∈ m ∧ pr.1 ≠ i) := by
  simp [pwSet, List.mem_filter]

theorem isProtWithId_eq_true {i : String} {e : Entry} :
    isProtWithId i e = true ↔
      ∃ dd : Device, e = Entry.dev dd ∧ dd.id = i ∧ dd.isProtected = true := by
  cases e <;> simp [isProtWithId]

theorem entryPwOk_eq_true {m : List (String × String)} {e : Entry} :
    entryPwOk m e = true ↔
      ∀ dd : Device, e = Entry.dev dd → dd.isProtected = true →
        (pwLookup m dd.id).isSome = true := by
  cases e with
  | dev d =>
    by_cases hp : d.isProtected = true <;> simp [entryPwOk, hp]
  | favHeader => simp [entryPwOk]
  | onlineHeader => simp [entryPwOk]
  | offlineHeader => simp [entryPwOk]

theorem pwMapConsistent_iff (st : AppState) :
    pwMapConsistent st = true ↔
      ((∀ pr ∈ st.devicePasswords, ∃ dd : Device,
          Entry.dev dd ∈ st.sidebar ∧ dd.id = pr.1 ∧ dd.isProtected = true) ∧
       (∀ dd : Device, Entry.dev dd ∈ st.sidebar → dd.isProtected = true →
          (pwLookup st.devicePasswords dd.id).isSome = true)) := by
  simp only [pwMapConsistent, Bool.and_eq_true, List.all_eq_true]
  constructor
  · rintro ⟨h1, h2⟩
    constructor
    · intro pr hpr
      obtain ⟨e, he, hip⟩ := List.any_eq_true.mp (h1 pr hpr)
      obtain ⟨dd, rfl, hid, hprot⟩ := isProtWithId_eq_true.mp hip
      exact ⟨dd, he, hid, hprot⟩
    · intro dd hdd hprot
      exact entryPwOk_eq_true.mp (h2 _ hdd) dd rfl hprot
  · rintro ⟨h1, h2⟩
    constructor
    · intro pr hpr
      obtain ⟨dd, hdd, hid, hprot⟩ := h1 pr hpr
      exact List.any_eq_true.mpr ⟨Entry.dev dd, hdd,
        isProtWithId_eq_true.mpr ⟨dd, rfl, hid, hprot⟩⟩
    · intro e he
      refine entryPwOk_eq_true.mpr ?_
      rintro dd rfl hprot
      exact h2 dd he hprot

theorem add_preserves_pwMap (form : AddForm) (ri : Fin 2) (st : AppState)
    (res : AppState × Option String)
    (hc : pwMapConsistent st = true)
    (h : confirmAddDevice form ri st = some res) :
    pwMapConsistent res.1 = true := by
  simp only [confirmAddDevice] at h
  split at h
  · cases h; exact hc
  · split at h
    · cases h; exact hc
    · split at h
      · cases h; exact hc
      · split at h
        · rename_i sb heq
          cases h
          rw [pwMapConsistent_iff] at hc ⊢
          obtain ⟨hc1, hc2⟩ := hc
          dsimp only
          simp only [addDeviceToSidebar] at heq
          split at heq
          all_goals
            have hmem := mem_insertAfterHdr heq
            refine ⟨?_, ?_⟩
          case _ =>
            intro pr hpr
            by_cases hprot : form.isPasswordProtected = true
            · simp only [if_pos hprot] at hpr
              rcases mem_pwSet.mp hpr with rfl | ⟨hm, _⟩
              · exact ⟨_, (hmem _).mpr (Or.inr rfl), rfl, hprot⟩
              · obtain ⟨dd, hdd, hid, hp⟩ := hc1 pr hm
                exact ⟨dd, (hmem _).mpr (Or.inl hdd), hid, hp⟩
            · simp only [if_neg hprot] at hpr
              obtain ⟨dd, hdd, hid, hp⟩ := hc1 pr hpr
              exact ⟨dd, (hmem _).mpr (Or.inl hdd), hid, hp⟩
          case _ =>
            intro dd hdd hp
            rcases (hmem _).mp hdd with hin | heqd
            · have hl := hc2 dd hin hp
              by_cases hprot : form.isPasswordProtected = true
              · simp only [if_pos hprot]
                rw [pwLookup_pwSet]
                by_cases hdi : dd.id = form.deviceId
                · simp [hdi]
                · simp [hdi, hl]
              · simp only [if_neg hprot]
                exact hl
            · obtain rfl : dd = addedDevice (jsTrim form.nameRaw) form.deviceId
                  form.isPasswordProtected form.deviceType
                  (if form.manualSelected = true then (jsTrim form.ipRaw) else "")
                  form.manualSelected ri := by
                injection heqd
              have hprot : form.isPasswordProtected = true := hp
              simp only [if_pos hprot]
              rw [pwLookup_pwSet]
              simp [addedDevice]
          case _ =>
            intro pr hpr
            by_cases hprot : form.isPasswordProtected = true
            · simp only [if_pos hprot] at hpr
              rcases mem_pwSet.mp hpr with rfl | ⟨hm, _⟩
              · exact ⟨_, (hmem _).mpr (Or.inr rfl), rfl, hprot⟩
              · obtain ⟨dd, hdd, hid, hp⟩ := hc1 pr hm
                exact ⟨dd, (hmem _).mpr (Or.inl hdd), hid, hp⟩
            · simp only [if_neg hprot] at hpr
              obtain ⟨dd, hdd, hid, hp⟩ := hc1 pr hpr
              exact ⟨dd, (hmem _).mpr (Or.inl hdd), hid, hp⟩
          case _ =>
            intro dd hdd hp
            rcases (hmem _).mp hdd with hin | heqd
            · have hl := hc2 dd hin hp
              by_cases hprot : form.isPasswordProtected = true
              · simp only [if_pos hprot]
                rw [pwLookup_pwSet]
                by_cases hdi : dd.id = form.deviceId
                · simp [hdi]
                · simp [hdi, hl]
              · simp only [if_neg hprot]
                exact hl
            · obtain rfl : dd = addedDevice (jsTrim form.nameRaw) form.deviceId
                  form.isPasswordProtected form.deviceType
                  (if form.manualSelected = true then (jsTrim form.ipRaw) else "")
                  form.manualSelected ri := by
                injection heqd
              have hprot : form.isPasswordProtected = true := hp
              simp only [if_pos hprot]
              rw [pwLookup_pwSet]
              simp [addedDevice]
        · exact Option.noConfusion h

theorem move_preserves_pwMap_core (i : String) (d2 : Device)
    (m pws : List (String × String)) (sbOld sb : List Entry)
    (hf : Entry.favHeader ∈ sbOld)
    (hd2i : d2.id = i)
    (heq : moveDeviceToCorrectSection d2 (updateDev i d2 sbOld) = some sb)
    (hc1 : ∀ pr ∈ m, ∃ dd : Device,
        Entry.dev dd ∈ sbOld ∧ dd.id = pr.1 ∧ dd.isProtected = true)
    (hc2 : ∀ dd : Device, Entry.dev dd ∈ sbOld → dd.isProtected = true →
        (pwLookup m dd.id).isSome = true)
    (hpw1 : ∀ pr ∈ pws, (pr ∈ m ∧ pr.1 ≠ i) ∨ (pr.1 = i ∧ d2.isProtected = true))
    (hpw2 : ∀ j, j ≠ i → pwLookup pws j = pwLookup m j)
    (hpw3 : d2.isProtected = true → (pwLookup pws i).isSome = true) :
    (∀ pr ∈ pws, ∃ dd : Device,
        Entry.dev dd ∈ sb ∧ dd.id = pr.1 ∧ dd.isProtected = true) ∧
    (∀ dd : Device, Entry.dev dd ∈ sb → dd.isProtected = true →
        (pwLookup pws dd.id).isSome = true) := by
  subst hd2i
  have hfU : Entry.favHeader ∈ updateDev d2.id d2 sbOld :=
    hdr_mem_updateDev Entry.favHeader rfl _ _ hf
  have hmem := mem_moveToCorrect hfU heq
  constructor
  · intro pr hpr
    rcases hpw1 pr hpr with ⟨hm, hne⟩ | ⟨hip, hp⟩
    · obtain ⟨dd, hdd, hdi, hdp⟩ := hc1 pr hm
      have hddne : dd.id ≠ d2.id := by rw [hdi]; exact hne
      refine ⟨dd, (hmem _).mpr (Or.inl ⟨?_, ?_⟩), hdi, hdp⟩
      · exact List.mem_map.mpr ⟨Entry.dev dd, hdd, by simp [updEntry, hddne]⟩
      · simp [entryKeep, hddne]
    · exact ⟨d2, (hmem _).mpr (Or.inr rfl), hip.symm, hp⟩
  · intro dd hdd hp
    rcases (hmem _).mp hdd with ⟨hin, hkeep⟩ | heqd
    · have hne : dd.id ≠ d2.id := by simpa [entryKeep] using hkeep
      obtain ⟨e, he, hupd⟩ := mem_updateDev.mp hin
      cases e with
      | dev y =>
        by_cases hy : (y.id == d2.id) = true
        · simp only [updEntry, hy, if_pos] at hupd
          obtain rfl : d2 = dd := by injection hupd
          exact absurd rfl hne
        · simp only [updEntry, hy, Bool.false_eq_true, if_neg, not_false_iff] at hupd
          have hyd : y = dd := by injection hupd
          rw [hyd] at he
          rw [hpw2 dd.id hne]
          exact hc2 dd he hp
      | favHeader => simp [updEntry] at hupd
      | onlineHeader => simp [updEntry] at hupd
      | offlineHeader => simp [updEntry] at hupd
    · obtain rfl : dd = d2 := by injection heqd
      exact hpw3 hp

theorem delete_preserves_pwMap (d : Device) (st : AppState)
    (hc : pwMapConsistent st = true) :
    pwMapConsistent (deleteDevice d st) = true := by
  rw [pwMapConsistent_iff] at hc
  obtain ⟨hc1, hc2⟩ := hc
  rw [pwMapConsistent_iff]
  simp only [deleteDevice]
  constructor
  · intro pr hpr
    rcases mem_pwDel.mp hpr with ⟨hm, hne⟩
    obtain ⟨dd, hdd, hdi, hp⟩ := hc1 pr hm
    have hddne : dd.id ≠ d.id := by rw [hdi]; exact hne
    refine ⟨dd, ?_, hdi, hp⟩
    exact List.mem_filter.mpr ⟨hdd, by simp [entryKeep, hddne]⟩
  · intro dd hdd hp
    obtain ⟨hin, hkeep⟩ := List.mem_filter.mp hdd
    have hne : dd.id ≠ d.id := by simpa [entryKeep] using hkeep
    rw [pwLookup_pwDel]
    simp only [hne, if_neg]
    exact hc2 dd hin hp

theorem edit_preserves_pwMap (form : EditForm) (d : Device) (st : AppState)
    (res : AppState × Option String)
    (hc : pwMapConsistent st = true)
    (hid : form.deviceId = d.id)
    (hf : Entry.favHeader ∈ st.sidebar)
    (h : confirmEditDevice form d st = some res) :
    pwMapConsistent res.1 = true := by
  simp only [confirmEditDevice] at h
  split at h
  · cases h; exact hc
  · split at h
    · cases h; exact hc
    · rename_i hval2
      split at h
      · cases h; exact hc
      · split at h
        · rename_i sb heq
          cases h
          rw [pwMapConsistent_iff] at hc
          obtain ⟨hc1, hc2⟩ := hc
          rw [pwMapConsistent_iff]
          dsimp only
          simp only [updateDeviceInSidebar] at heq
          refine move_preserves_pwMap_core d.id
            (updateDeviceFields d (jsTrim form.nameRaw) form.isPasswordProtected
              form.deviceType (editDeviceIPValue form d) d.manualAdd)
            st.devicePasswords _ st.sidebar sb hf rfl heq hc1 hc2 ?_ ?_ ?_
          · intro pr hpr
            by_cases hprot : form.isPasswordProtected = true
            · simp only [if_pos hprot] at hpr
              by_cases hpw : (form.password == "") = true
              · simp only [if_pos hpw] at hpr
                by_cases hpi : pr.1 = d.id
                · right; exact ⟨hpi, by simp [updateDeviceFields, hprot]⟩
                · left; exact ⟨hpr, hpi⟩
              · simp only [if_neg hpw] at hpr
                rcases mem_pwSet.mp hpr with rfl | ⟨hm, hne⟩
                · right
                  refine ⟨hid, by simp [updateDeviceFields, hprot]⟩
                · left; exact ⟨hm, by rw [← hid]; exact hne⟩
            · simp only [if_neg hprot] at hpr
              rcases mem_pwDel.mp hpr with ⟨hm, hne⟩
              left; exact ⟨hm, by rw [← hid]; exact hne⟩
          · intro j hj
            have hjf : j ≠ form.deviceId := by rw [hid]; exact hj
            by_cases hprot : form.isPasswordProtected = true
            · simp only [if_pos hprot]
              by_cases hpw : (form.password == "") = true
              · simp only [if_pos hpw]
              · simp only [if_neg hpw]
                rw [pwLookup_pwSet]
                simp [hjf]
            · simp only [if_neg hprot]
              rw [pwLookup_pwDel]
              simp [hjf]
          · intro hp
            have hprot : form.isPasswordProtected = true := by
              simpa [updateDeviceFields] using hp
            simp only [if_pos hprot]
            by_cases hpw : (form.password == "") = true
            · simp only [if_pos hpw]
              have hjs : ¬ jsFalsyOptStr
                  (pwLookup st.devicePasswords form.deviceId) = true := by
                simp only [hprot, hpw, Bool.true_and] at hval2
                exact hval2
              rw [hid] at hjs
              cases hlk : pwLookup st.devicePasswords d.id with
              | none => rw [hlk] at hjs; simp [jsFalsyOptStr] at hjs
              | some s => simp
            · simp only [if_neg hpw]
              rw [pwLookup_pwSet]
              simp [hid]
        · exact Option.noConfusion h

/-- Claim C9: toggleDeviceStatus is a deterministic involution on the
status of a device: it maps online to offline and offline to online, so
applying it twice restores the original status. -/
theorem toggleDeviceStatus_involution (d : Device) :
    (deviceToggleStatus (deviceToggleStatus d)).status = d.status ∧
    (deviceToggleStatus d).status = flipStatus d.status ∧
    flipStatus Status.online = Status.offline ∧
    flipStatus Status.offline = Status.online := by
  refine ⟨?_, rfl, by decide, by decide⟩
  cases h : d.status <;> simp [deviceToggleStatus, flipStatus, h]

/-- Claim C10: getDeviceIconByName is total: on every name, including a
missing or empty one, it returns one of the seven icon strings, and it
returns the default smartphone icon whenever the name is falsy or no
recognized keyword occurs in the lowercased name. -/
theorem getDeviceIconByName_total (name : Option String) :
    getDeviceIconByName name ∈ deviceIcons ∧
      ((jsFalsyOptStr name = true ∨ anyKeywordMatch name = false) →
        getDeviceIconByName name = "📱") := by
  constructor
  · unfold getDeviceIconByName
    repeat' split
    all_goals simp [deviceIcons]
  · rintro (hf | hk)
    · simp [getDeviceIconByName, hf]
    · by_cases hfb : jsFalsyOptStr name = true
      · simp [getDeviceIconByName, hfb]
      · simp only [anyKeywordMatch, Bool.or_eq_false_iff] at hk
        simp [getDeviceIconByName, hfb, hk]

/-- Claim C1, counterexample: toggleDeviceStatus does not re-draw the
status at random; on an online device it deterministically yields
offline, while the random assignment the claim describes yields online
at draw index zero. -/
theorem toggleStatus_notRandom_counterexample :
    (deviceToggleStatus devOnlineEx).status ≠ (specRandomToggle 0 devOnlineEx).status := by
  decide

/-- Claim C1, amended: the status is randomly assigned on creation, with
no connectivity check: addDeviceToSidebar takes it from the statuses
array at the drawn random index, so both draws occur; a status toggle is
instead the deterministic flip of toggleDeviceStatus. -/
theorem statusRandom_onCreation_toggleDeterministic
    (name id deviceType deviceIP : String) (isProtected isManuallyAdded : Bool) :
    (addedDevice name id isProtected deviceType deviceIP isManuallyAdded 0).status
        = Status.online ∧
    (addedDevice name id isProtected deviceType deviceIP isManuallyAdded 1).status
        = Status.offline ∧
    (∀ ri : Fin 2,
       (addedDevice name id isProtected deviceType deviceIP isManuallyAdded ri).status
         = randomStatusOf ri) ∧
    (∀ d : Device, (deviceToggleStatus d).status = flipStatus d.status) :=
  ⟨rfl, rfl, fun _ => rfl, fun _ => rfl⟩

/-- Claim C3: each validation failure of the add-device confirm (blank
trimmed name, protection checked with empty password, manual method with
blank trimmed IP) raises an alert and leaves the whole state unchanged:
no device is added, no password stored, the modal stays as it was. -/
theorem confirmAddDevice_validation (form : AddForm) (ri : Fin 2) (st : AppState)
    (h : (jsTrim form.nameRaw) = "" ∨
         (form.isPasswordProtected = true ∧ form.password = "") ∨
         (form.manualSelected = true ∧ (jsTrim form.ipRaw) = "")) :
    ∃ msg, confirmAddDevice form ri st = some (st, some msg) := by
  by_cases h1 : (jsTrim form.nameRaw) = ""
  · have hb1 : ((jsTrim form.nameRaw) == "") = true := by simp [h1]
    exact ⟨"Enter device name!", by simp [confirmAddDevice, hb1]⟩
  · have hb1 : ((jsTrim form.nameRaw) == "") = false := beq_eq_false_iff_ne.mpr h1
    by_cases h2 : form.isPasswordProtected = true ∧ form.password = ""
    · have hb2 : (form.isPasswordProtected && (form.password == "")) = true := by
        simp [h2.1, h2.2]
      exact ⟨"Enter password for protected device!", by simp [confirmAddDevice, hb1, hb2]⟩
    · have h3 : form.manualSelected = true ∧ (jsTrim form.ipRaw) = "" := by tauto
      have hb2 : (form.isPasswordProtected && (form.password == "")) = false := by
        by_cases hbp : form.isPasswordProtected = true
        · have hpw : ¬ form.password = "" := fun hc => h2 ⟨hbp, hc⟩
          simp [hbp, hpw]
        · simp only [Bool.not_eq_true] at hbp
          simp [hbp]
      have hb3 : (form.manualSelected && ((jsTrim form.ipRaw) == "")) = true := by
        simp [h3.1, h3.2]
      exact ⟨"Enter device IP!", by simp [confirmAddDevice, hb1, hb2, hb3]⟩

/-- Witness for claim C3 at a concrete blank-name form. -/
theorem confirmAddDevice_validation_witness :
    ∃ msg, confirmAddDevice formBlankNameEx 0 stEmptyEx = some (stEmptyEx, some msg) :=
  confirmAddDevice_validation formBlankNameEx 0 stEmptyEx (Or.inl (by decide))

/-- Claim C2: for a protected device whose id maps to a stored plaintext
password, the verification handler runs the pending edit or delete action
exactly when the entered password equals the stored one; on a mismatch it
raises the blocking alert and leaves the state, in particular the
password map and the sidebar, unchanged. -/
theorem confirmPasswordVerify_gate (st : AppState) (d : Device)
    (p entered : String) (action : ActionType)
    (hprot : d.isProtected = true)
    (hp : pwLookup st.devicePasswords d.id = some p) :
    (entered = p →
       (confirmPasswordVerify entered d action st).2 = none ∧
       (confirmPasswordVerify entered d action st).1.passwordVerifyModalOpen = false ∧
       (action = ActionType.edit →
          (confirmPasswordVerify entered d action st).1.editDeviceModalOpen = true ∧
          (confirmPasswordVerify entered d action st).1.sidebar = st.sidebar ∧
          (confirmPasswordVerify entered d action st).1.devicePasswords
            = st.devicePasswords) ∧
       (action = ActionType.delete →
          (confirmPasswordVerify entered d action st).1.sidebar
            = removeDevId d.id st.sidebar ∧
          pwLookup (confirmPasswordVerify entered d action st).1.devicePasswords d.id
            = none)) ∧
    (entered ≠ p →
       (confirmPasswordVerify entered d action st).2 = some "Incorrect password!" ∧
       (confirmPasswordVerify entered d action st).1 = st) := by
  constructor
  · intro he
    subst he
    have hcond : (some entered == pwLookup st.devicePasswords d.id) = true := by
      simp [hp]
    cases action with
    | edit => simp [confirmPasswordVerify, hcond]
    | delete => simp [confirmPasswordVerify, hcond, deleteDevice, pwLookup_pwDel]
  · intro hne
    have hcond : (some entered == pwLookup st.devicePasswords d.id) = false := by
      rw [hp]
      simp [hne]
    simp [confirmPasswordVerify, hcond]

/-- Witness for claim C2 at a concrete state: the wrong password raises
the alert and leaves the state unchanged. -/
theorem confirmPasswordVerify_gate_witness :
    (confirmPasswordVerify "bad" devProtEx ActionType.delete stVerifyEx).2
        = some "Incorrect password!" ∧
    (confirmPasswordVerify "bad" devProtEx ActionType.delete stVerifyEx).1
        = stVerifyEx :=
  (confirmPasswordVerify_gate stVerifyEx devProtEx "pw" "bad" ActionType.delete
    (by decide) (by decide)).2 (by decide)

theorem toggleFavorite_eq_move (d : Device) (sb : List Entry) :
    toggleFavorite d sb =
      moveDeviceToCorrectSection (deviceToggleFavorite d)
        (updateDev d.id (deviceToggleFavorite d) sb) := by
  by_cases hfav : d.favorite = true
  · simp [toggleFavorite, hfav]
  · have hfav2 : (deviceToggleFavorite d).favorite = true := by
      simp [deviceToggleFavorite, hfav]
    simp [toggleFavorite, hfav, moveDeviceToCorrectSection, hfav2]

/-- Claim C4: when the three section headers are present, a status toggle
or a favorite toggle re-categorizes the device element: it ends up
directly after the Favorites header when it is a favorite, and otherwise
directly after the Online or Offline header matching its status. -/
theorem toggles_recategorize (d : Device) (sb : List Entry)
    (hf : Entry.favHeader ∈ sb) (hon : Entry.onlineHeader ∈ sb)
    (hoff : Entry.offlineHeader ∈ sb) :
    (∃ sb', toggleDeviceStatus d sb = some sb' ∧
       followsHeader (hdrFor (deviceToggleStatus d)) (deviceToggleStatus d) sb'
         = true) ∧
    (∃ sb2, toggleFavorite d sb = some sb2 ∧
       followsHeader (hdrFor (deviceToggleFavorite d)) (deviceToggleFavorite d) sb2
         = true) := by
  constructor
  · have hfU := hdr_mem_updateDev Entry.favHeader rfl d.id (deviceToggleStatus d) hf
    have honU := hdr_mem_updateDev Entry.onlineHeader rfl d.id (deviceToggleStatus d) hon
    have hoffU := hdr_mem_updateDev Entry.offlineHeader rfl d.id (deviceToggleStatus d) hoff
    obtain ⟨sb', h1, h2⟩ := moveToCorrect_spec (deviceToggleStatus d) _ hfU honU hoffU
    exact ⟨sb', h1, h2⟩
  · have hfU := hdr_mem_updateDev Entry.favHeader rfl d.id (deviceToggleFavorite d) hf
    have honU := hdr_mem_updateDev Entry.onlineHeader rfl d.id (deviceToggleFavorite d) hon
    have hoffU := hdr_mem_updateDev Entry.offlineHeader rfl d.id (deviceToggleFavorite d) hoff
    obtain ⟨sb2, h1, h2⟩ := moveToCorrect_spec (deviceToggleFavorite d) _ hfU honU hoffU
    refine ⟨sb2, ?_, h2⟩
    rw [toggleFavorite_eq_move]
    exact h1

/-- Witness for claim C4 at a concrete sidebar holding the headers. -/
theorem toggles_recategorize_witness :
    ∃ sb', toggleDeviceStatus devOnlineEx sbHeadersEx = some sb' ∧
      followsHeader (hdrFor (deviceToggleStatus devOnlineEx))
        (deviceToggleStatus devOnlineEx) sb' = true :=
  (toggles_recategorize devOnlineEx sbHeadersEx (by decide) (by decide)
    (by decide)).1

/-- Claim C7: each of the wifi, bluetooth and camera connection options
issues a GET to the scan URL for its method under the API base, and the
response callback renders the truthy error, the non-empty devices list,
or the no-devices message. -/
theorem scanMethods_spec (m : String)
    (hm : m = "wifi" ∨ m = "bluetooth" ∨ m = "camera") :
    (∃ b, connectionOptionAction m =
        ConnectionAction.scan ("http://localhost:5000/api/devices/scan?method=" ++ m) b) ∧
    (∀ data : ScanResponse,
      (∀ e, data.error = some e → e ≠ "" →
         renderScanResult data = ScanRender.errorMsg e) ∧
      (jsTruthyOptStr data.error = false →
        (∀ l, data.devices = some l → 0 < l.length →
           renderScanResult data = ScanRender.deviceItems (l.map renderScanItem)) ∧
        ((data.devices = none ∨ data.devices = some []) →
           renderScanResult data = ScanRender.noDevices))) := by
  constructor
  · rcases hm with rfl | rfl | rfl
    · exact ⟨true, by decide⟩
    · exact ⟨false, by decide⟩
    · exact ⟨false, by decide⟩
  · intro data
    constructor
    · intro e he hne
      have ht : jsTruthyOptStr (some e) = true := by simp [jsTruthyOptStr, hne]
      simp [renderScanResult, he, ht]
    · intro hft
      constructor
      · intro l hl hlen
        simp [renderScanResult, hft, hl, hlen]
      · rintro (hd | hd) <;> simp [renderScanResult, hft, hd]

/-- Witness for claim C7 at the wifi method. -/
theorem scanMethods_spec_witness :
    ∃ b, connectionOptionAction "wifi" =
      ConnectionAction.scan ("http://localhost:5000/api/devices/scan?method=" ++ "wifi") b :=
  (scanMethods_spec "wifi" (Or.inl rfl)).1

/-- Claim C5: the Bluetooth dual-fetch renders an error message exactly
when both responses carry a truthy error; when only one of the two fails,
the device lists of the other response are still rendered as plain
sections, with no partial-failure indication. -/
theorem scanBluetooth_join (a p : ScanResponse) :
    ((∃ m, scanBluetoothRender a p = BtRender.errorMsg m) ↔
       (jsTruthyOptStr a.error && jsTruthyOptStr p.error) = true) ∧
    (jsTruthyOptStr a.error = true → jsTruthyOptStr p.error = false →
       ∀ l, p.devices = some l → 0 < l.length →
         scanBluetoothRender a p =
           BtRender.sections (l.map (fun d => createDeviceListItem d true))
             ((a.devices.getD []).map (fun d => createDeviceListItem d false))) ∧
    (jsTruthyOptStr a.error = false → jsTruthyOptStr p.error = true →
       ∀ l, a.devices = some l → 0 < l.length →
         scanBluetoothRender a p =
           BtRender.sections ((p.devices.getD []).map (fun d => createDeviceListItem d true))
             (l.map (fun d => createDeviceListItem d false))) := by
  refine ⟨⟨?_, ?_⟩, ?_, ?_⟩
  · rintro ⟨m, hm⟩
    by_cases hb : (jsTruthyOptStr a.error && jsTruthyOptStr p.error) = true
    · exact hb
    · exfalso
      simp only [scanBluetoothRender, hb, Bool.false_eq_true, if_neg,
        not_false_iff] at hm
      split at hm
      · exact BtRender.noConfusion hm
      · exact BtRender.noConfusion hm
  · intro hb
    exact ⟨"An error occurred while scanning Bluetooth devices.",
      by simp [scanBluetoothRender, hb]⟩
  · intro ha hp2 l hl hlen
    have hb : (jsTruthyOptStr a.error && jsTruthyOptStr p.error) = false := by
      simp [hp2]
    have hlz : l.length ≠ 0 := Nat.pos_iff_ne_zero.mp hlen
    simp [scanBluetoothRender, hb, hl, hlz]
  · intro ha hp2 l hl hlen
    have hb : (jsTruthyOptStr a.error && jsTruthyOptStr p.error) = false := by
      simp [ha]
    have hlz : l.length ≠ 0 := Nat.pos_iff_ne_zero.mp hlen
    simp [scanBluetoothRender, hb, hl, hlz]

/-- Witness for claim C5: the available fetch fails, the paired fetch
succeeds, and the paired list is still rendered. -/
theorem scanBluetooth_join_witness :
    scanBluetoothRender btAvailErrEx btPairedOkEx =
      BtRender.sections
        ([{ id := "b1", name := some "JBL", typ := none, address := none }].map
          (fun d => createDeviceListItem d true))
        ((btAvailErrEx.devices.getD []).map (fun d => createDeviceListItem d false)) :=
  (scanBluetooth_join btAvailErrEx btPairedOkEx).2.1 (by decide) (by decide)
    _ (by decide) (by decide)

/-- Claim C6: a successful add creates a device carrying a data-ip
attribute exactly when the manual connection option was selected: the
handler passes the trimmed IP only for manual adds and the empty string
otherwise, and addDeviceToSidebar sets the attribute only for a
non-empty IP argument. -/
theorem addedDevice_ip (form : AddForm) (ri : Fin 2) (st st' : AppState)
    (h : confirmAddDevice form ri st = some (st', none)) :
    Entry.dev (confirmAddedDevice form ri) ∈ st'.sidebar ∧
    ((confirmAddedDevice form ri).ip ≠ none ↔ form.manualSelected = true) ∧
    (∀ (n i t ip : String) (pr man : Bool) (r : Fin 2),
       ((addedDevice n i pr t ip man r).ip = none ↔ ip = "")) := by
  simp only [confirmAddDevice] at h
  split at h
  · simp at h
  · split at h
    · simp at h
    · rename_i hv2
      split at h
      · simp at h
      · rename_i hv3
        split at h
        · rename_i sb heq
          simp only [Option.some.injEq, Prod.mk.injEq] at h
          obtain ⟨h1, -⟩ := h
          subst h1
          simp only [addDeviceToSidebar] at heq
          have hipthird : ∀ (n i t ip : String) (pr man : Bool) (r : Fin 2),
              ((addedDevice n i pr t ip man r).ip = none ↔ ip = "") := by
            intro n i t ip pr man r
            simp only [addedDevice]
            by_cases hip : ip = "" <;> simp [hip]
          have hipsecond :
              ((confirmAddedDevice form ri).ip ≠ none ↔ form.manualSelected = true) := by
            by_cases hman : form.manualSelected = true
            · have h3f : ((jsTrim form.ipRaw) == "") = false := by
                by_cases hz : (jsTrim form.ipRaw) = ""
                · exact absurd (by simp [hman, hz]) hv3
                · exact beq_eq_false_iff_ne.mpr hz
              simp [confirmAddedDevice, addedDevice, hman, h3f]
            · simp [confirmAddedDevice, addedDevice, hman]
          split at heq
          · have hmem := mem_insertAfterHdr heq
            exact ⟨(hmem _).mpr (Or.inr rfl), hipsecond, hipthird⟩
          · have hmem := mem_insertAfterHdr heq
            exact ⟨(hmem _).mpr (Or.inr rfl), hipsecond, hipthird⟩
        · exact Option.noConfusion h

/-- Witness for claim C6 at a concrete manual add. -/
theorem addedDevice_ip_witness :
    Entry.dev devManualEx ∈ stAfterAddEx.sidebar :=
  (addedDevice_ip formManualEx 0 stEmptyEx stAfterAddEx (by decide)).1

/-- Claim C8: the add, edit and delete operations each preserve the
invariant that the password map has an entry for an id exactly when a
password-protected device with that id is in the sidebar: add stores the
password only when protection is checked, edit deletes the entry when
protection is unchecked and keeps the old one when protected with an
empty new password, and delete removes the entry of the deleted device. -/
theorem pwMap_invariant_ops :
    (∀ (form : AddForm) (ri : Fin 2) (st : AppState) (res : AppState × Option String),
       pwMapConsistent st = true → confirmAddDevice form ri st = some res →
       pwMapConsistent res.1 = true) ∧
    (∀ (form : EditForm) (d : Device) (st : AppState) (res : AppState × Option String),
       pwMapConsistent st = true → form.deviceId = d.id →
       Entry.favHeader ∈ st.sidebar →
       confirmEditDevice form d st = some res → pwMapConsistent res.1 = true) ∧
    (∀ (d : Device) (st : AppState),
       pwMapConsistent st = true → pwMapConsistent (deleteDevice d st) = true) :=
  ⟨fun form ri st res hc h => add_preserves_pwMap form ri st res hc h,
   fun form d st res hc hid hf h => edit_preserves_pwMap form d st res hc hid hf h,
   fun d st hc => delete_preserves_pwMap d st hc⟩

/-- Witness for claim C8: deleting the concrete protected device keeps
the map consistent. -/
theorem pwMap_invariant_ops_witness :
    pwMapConsistent (deleteDevice devProtEx stVerifyEx) = true :=
  pwMap_invariant_ops.2.2 devProtEx stVerifyEx (by decide)

/-- Witness for claim C10: a missing name yields the default icon. -/
theorem getDeviceIconByName_total_witness :
    getDeviceIconByName none = "📱" :=
  (getDeviceIconByName_total none).2 (Or.inl (by decide))
